import Mathlib

/-!
Verification of the scroll-result validator in
src/include/elasticlient/scroll-parser.h (function
elasticlient::parseScrollResult).

The function consumes a raw JSON text, parses it with rapidjson into a
freshly allocated JsonResult stored through the unique_ptr out-parameter
parsedResult, and then runs an ordered sequence of checks over the parsed
document; on success it writes the scroll id string through the scrollId
out-parameter and returns true, otherwise it returns false.

Embedding choices:
  - rapidjson documents are modelled by the inductive type JValue.  A JSON
    number is modelled by JNumber: constructor intVal n for a number that
    rapidjson parses into one of its integer slots (a decimal integer
    literal within the int64/uint64 range, carrying its exact value n),
    and constructor nonInt for a number parsed into the double slot (a
    literal with a fractional part or exponent, or an integer literal
    outside the 64-bit ranges).  rapidjson's IsInt() is true exactly for
    an integer-slot value within the signed 32-bit range, and never for a
    double-slot value.
  - the rapidjson text parser itself is an external library, not part of
    this repository; the embedding therefore takes the parse outcome as
    input: none models a text that rapidjson rejects, and also the case
    where Parse succeeds but the root is a non-object (folded into the
    same first gate by the code at lines 42-46); some doc models a text
    whose root parses to the value doc.  More precisely the input is
    Option JValue where none stands for a failed parse, and the non-object
    root case is represented by some doc with doc not an object, exactly
    as the code distinguishes the two via ok and IsObject().
  - rapidjson member lookup (FindMember / HasMember / operator[]) returns
    the first member with the given name, so it is modelled by first-match
    lookup in an association list.
  - HasMember carries the precondition IsObject(), enforced by
    RAPIDJSON_ASSERT inside FindMember.  Every call site in the source
    guards this precondition except one: at line 85 the code evaluates
    hits.HasMember("hits") without first checking hits.IsObject().  The
    embedding makes that precondition violation observable as the
    distinguished outcome undefinedBehavior.
-/

namespace Elasticlient

/-- A JSON number as stored by rapidjson: intVal n is a number held in an
integer slot with exact value n, nonInt is a number held in the double
slot (fractional, exponent form, or out of 64-bit integer range). -/
inductive JNumber where
  | intVal (n : Int)
  | nonInt
deriving DecidableEq, Repr

/-- A rapidjson value: null, bool, number, string, array or object.  An
object is a list of members in document order; duplicate names are kept,
lookup finds the first. -/
inductive JValue where
  | jnull
  | jbool (b : Bool)
  | jnum (n : JNumber)
  | jstr (s : String)
  | jarr (elems : List JValue)
  | jobj (members : List (String × JValue))
deriving Repr

/-- First-match lookup among object members, as rapidjson FindMember. -/
def findMember : List (String × JValue) → String → Option JValue
  | [], _ => none
  | (k, v) :: rest, key => if k = key then some v else findMember rest key

/-- Member list of a value; only meaningful for objects. -/
def JValue.members : JValue → List (String × JValue)
  | .jobj ms => ms
  | _ => []

/-- Lookup of a member by name, modelling FindMember / operator[] on an
object.  Call sites mirror the guards of the source; the one unguarded
HasMember of the source is modelled explicitly (see hitsGate). -/
def JValue.findMem (v : JValue) (k : String) : Option JValue :=
  findMember v.members k

/-- rapidjson IsObject(). -/
def JValue.isObject : JValue → Bool
  | .jobj _ => true
  | _ => false

/-- rapidjson IsBool(). -/
def JValue.isBool : JValue → Bool
  | .jbool _ => true
  | _ => false

/-- rapidjson GetBool(); meaningful only under IsBool(), which every call
site of the source guards via short-circuit evaluation. -/
def JValue.getBool : JValue → Bool
  | .jbool b => b
  | _ => false

/-- rapidjson IsArray(). -/
def JValue.isArray : JValue → Bool
  | .jarr _ => true
  | _ => false

/-- rapidjson IsString(). -/
def JValue.isString : JValue → Bool
  | .jstr _ => true
  | _ => false

/-- rapidjson GetString(); meaningful only under IsString(), which the
source guards. -/
def JValue.getString : JValue → String
  | .jstr s => s
  | _ => ""

/-- rapidjson IsInt(): the value sits in an integer slot and its value is
within the signed 32-bit range. -/
def JValue.isInt : JValue → Bool
  | .jnum (.intVal n) => decide (-2147483648 ≤ n ∧ n < 2147483648)
  | _ => false

/-- rapidjson GetInt(); meaningful only under IsInt(), which the source
guards. -/
def JValue.getInt : JValue → Int
  | .jnum (.intVal n) => n
  | _ => 0

/-- The error taxonomy of spec section 7, one kind per return-false site
of the source (identified by the source comments at lines 44, 51, 59, 70,
74, 78, 91, 96). -/
inductive ErrorKind where
  | parseError
  | errorFlagSet
  | timedOut
  | missingShardInfo
  | shardFailures
  | missingHits
  | missingScrollId
deriving DecidableEq, Repr

/-- Classified outcome of one run of the validator body: success carries
the parsed document handed back to the caller and the scroll id string;
failure carries the kind of the return-false site reached;
undefinedBehavior records that a rapidjson precondition
(RAPIDJSON_ASSERT) was violated before any return statement ran. -/
inductive Outcome where
  | success (doc : JValue) (scrollId : String)
  | failure (k : ErrorKind)
  | undefinedBehavior
deriving Repr

/-- Lines 86-92 of the source: require a string member named scroll id at
the root, extract it and return true; otherwise return false. -/
def scrollGate (doc : JValue) : Outcome :=
  match doc.findMem "_scroll_id" with
  | some sid =>
      if sid.isString then .success doc sid.getString
      else .failure .missingScrollId
  | none => .failure .missingScrollId

/-- Lines 82-97 of the source: if the root has a member named hits, the
code evaluates hits.HasMember("hits") with no IsObject() guard, so a
non-object hits value violates the RAPIDJSON_ASSERT precondition of
FindMember; when hits is an object whose own hits member is an array,
control continues to the scroll id check; every other case falls through
to the final return false. -/
def hitsGate (doc : JValue) : Outcome :=
  match doc.findMem "hits" with
  | some hits =>
      if ¬ hits.isObject then .undefinedBehavior
      else
        match hits.findMem "hits" with
        | some hh => if hh.isArray then scrollGate doc else .failure .missingHits
        | none => .failure .missingHits
  | none => .failure .missingHits

/-- Lines 64-80 of the source: require a member named shards that is an
object and holds a member named failed passing IsInt(); if its value is
positive return false, otherwise continue to the hits check. -/
def shardsGate (doc : JValue) : Outcome :=
  match doc.findMem "_shards" with
  | some shards =>
      if shards.isObject then
        match shards.findMem "failed" with
        | some f =>
            if f.isInt then
              if f.getInt > 0 then .failure .shardFailures else hitsGate doc
            else .failure .missingShardInfo
        | none => .failure .missingShardInfo
      else .failure .missingShardInfo
  | none => .failure .missingShardInfo

/-- Lines 56-62 of the source: if the root has a member named timed out
whose value is not boolean false, return false; otherwise continue. -/
def timedOutGate (doc : JValue) : Outcome :=
  match doc.findMem "timed_out" with
  | some t =>
      if ¬ t.isBool ∨ t.getBool then .failure .timedOut else shardsGate doc
  | none => shardsGate doc

/-- Lines 48-54 of the source: if the root has a member named error whose
value is not boolean false, return false; otherwise continue. -/
def errorGate (doc : JValue) : Outcome :=
  match doc.findMem "error" with
  | some e =>
      if ¬ e.isBool ∨ e.getBool then .failure .errorFlagSet else timedOutGate doc
  | none => timedOutGate doc

/-- The whole validator body on the parse outcome, lines 42-97: a failed
parse or a non-object root returns false at the first gate, then the
gates run in source order. -/
def scrollOutcome (p : Option JValue) : Outcome :=
  match p with
  | none => .failure .parseError
  | some doc => if doc.isObject then errorGate doc else .failure .parseError

/-- The JsonResult object allocated at line 40; its document field holds
the parse outcome (none models a document left in the parse-error state
after a rejected Parse). -/
structure JsonResult where
  document : Option JValue
deriving Repr

/-- The two reference out-parameters of parseScrollResult: the unique_ptr
parsedResult (none models the null pointer) and the string scrollId. -/
structure CallState where
  parsedResult : Option JsonResult
  scrollId : String
deriving Repr

/-- The function parseScrollResult, lines 36-98, as a transformer of its
out-parameters: line 40 unconditionally resets parsedResult to a freshly
allocated JsonResult holding the parse outcome; the return value is some
true on the single return-true site (which first writes scrollId at line
88), some false on every return-false site, and none when the
RAPIDJSON_ASSERT precondition violation of line 85 is reached. -/
def parseScrollResult (p : Option JValue) (st : CallState) :
    Option Bool × CallState :=
  let st1 : CallState := { st with parsedResult := some ⟨p⟩ }
  match scrollOutcome p with
  | .success _ sid => (some true, { st1 with scrollId := sid })
  | .failure _ => (some false, st1)
  | .undefinedBehavior => (none, st1)

/-!
Spec-side decomposition.  Spec section 4.1 presents the validator as six
ordered gates where the first failing gate determines the outcome.  The
following definitions follow the words of the spec (one per gate, each
reporting the kind it fails with, none when it passes); they exist to be
compared with the source-translated scrollOutcome above.
-/

/-- Spec gate 2 (error flag): fails with ErrorFlagSet when the root has a
member named error whose value is not boolean false; passes otherwise. -/
def specErrorGate (doc : JValue) : Option ErrorKind :=
  match doc.findMem "error" with
  | some (.jbool false) => none
  | some _ => some .errorFlagSet
  | none => none

/-- Spec gate 3 (timeout flag): fails with TimedOut when the root has a
member named timed out whose value is not boolean false. -/
def specTimedOutGate (doc : JValue) : Option ErrorKind :=
  match doc.findMem "timed_out" with
  | some (.jbool false) => none
  | some _ => some .timedOut
  | none => none

/-- Spec gate 4 (shard health): requires an object member named shards
holding an integer member named failed, else MissingShardInfo; fails with
ShardFailures when that integer is positive. -/
def specShardsGate (doc : JValue) : Option ErrorKind :=
  match doc.findMem "_shards" with
  | some shards =>
      if shards.isObject then
        match shards.findMem "failed" with
        | some f =>
            if f.isInt then
              if f.getInt > 0 then some .shardFailures else none
            else some .missingShardInfo
        | none => some .missingShardInfo
      else some .missingShardInfo
  | none => some .missingShardInfo

/-- Spec gate 5 (hits container): requires an object member named hits
whose own member named hits is an array, else MissingHits.  Unlike the
source, the spec states this check as total: a non-object hits value also
fails with MissingHits. -/
def specHitsGate (doc : JValue) : Option ErrorKind :=
  match doc.findMem "hits" with
  | some hits =>
      if hits.isObject then
        match hits.findMem "hits" with
        | some hh => if hh.isArray then none else some .missingHits
        | none => some .missingHits
      else some .missingHits
  | none => some .missingHits

/-- Spec gate 6 (continuation token): requires a string member named
scroll id at the root, else MissingScrollId. -/
def specScrollIdGate (doc : JValue) : Option ErrorKind :=
  match doc.findMem "_scroll_id" with
  | some sid => if sid.isString then none else some .missingScrollId
  | none => some .missingScrollId

/-- The spec pipeline: the gates in the order of spec section 4.1 (parse,
error flag, timeout, shard health, hits container, continuation token);
the first failing gate yields the failure kind, none means all passed. -/
def firstFailure (p : Option JValue) : Option ErrorKind :=
  match p with
  | none => some .parseError
  | some doc =>
      if ¬ doc.isObject then some .parseError
      else
        match specErrorGate doc with
        | some k => some k
        | none =>
            match specTimedOutGate doc with
            | some k => some k
            | none =>
                match specShardsGate doc with
                | some k => some k
                | none =>
                    match specHitsGate doc with
                    | some k => some k
                    | none => specScrollIdGate doc

/-!
Concrete documents used by the spec scenarios of section 8 and by the
counterexamples below.
-/

/-- Scenario E1 document. -/
def e1doc : JValue :=
  .jobj [("hits", .jobj [("hits", .jarr [])]),
         ("_shards", .jobj [("failed", .jnum (.intVal 0))]),
         ("_scroll_id", .jstr "abc123")]

/-- Scenario E6 document. -/
def e6doc : JValue :=
  .jobj [("timed_out", .jbool true),
         ("_shards", .jobj [("failed", .jnum (.intVal 0))]),
         ("hits", .jobj [("hits", .jarr [])]),
         ("_scroll_id", .jstr "x")]

/-- An initial out-parameter state: null parsedResult, empty scrollId. -/
def st0 : CallState := { parsedResult := none, scrollId := "" }

example : scrollOutcome (some e1doc) = .success e1doc "abc123" := rfl
example : scrollOutcome (some e6doc) = .failure .timedOut := rfl
example : scrollOutcome none = .failure .parseError := rfl
example : scrollOutcome (some (.jobj [("error", .jbool true)])) = .failure .errorFlagSet := rfl
example :
    scrollOutcome (some (.jobj [("_shards", .jobj [("failed", .jnum (.intVal 0))]),
                                ("hits", .jstr "oops")])) = .undefinedBehavior := rfl
example : firstFailure (some e6doc) = some .timedOut := rfl
example : firstFailure (some e1doc) = none := rfl

/-!
Helper lemmas: which failure kinds each stage of the source can produce,
and the correspondence between each source stage and its spec gate.
-/

/-- The scroll id stage can only fail with MissingScrollId. -/
lemma scrollGate_failure (doc : JValue) (k : ErrorKind)
    (h : scrollGate doc = .failure k) : k = .missingScrollId := by
  unfold scrollGate at h
  split at h
  · split at h
    · exact absurd h (by simp)
    · injection h with h1; exact h1.symm
  · injection h with h1; exact h1.symm

/-- The hits stage can only fail with MissingHits or MissingScrollId. -/
lemma hitsGate_failure (doc : JValue) (k : ErrorKind)
    (h : hitsGate doc = .failure k) :
    k = .missingHits ∨ k = .missingScrollId := by
  unfold hitsGate at h
  split at h
  · split at h
    · exact absurd h (by simp)
    · split at h
      · split at h
        · exact Or.inr (scrollGate_failure doc k h)
        · injection h with h1; exact Or.inl h1.symm
      · injection h with h1; exact Or.inl h1.symm
  · injection h with h1; exact Or.inl h1.symm

/-- The shards stage can only fail with MissingShardInfo, ShardFailures,
MissingHits or MissingScrollId. -/
lemma shardsGate_failure (doc : JValue) (k : ErrorKind)
    (h : shardsGate doc = .failure k) :
    k = .missingShardInfo ∨ k = .shardFailures ∨
      k = .missingHits ∨ k = .missingScrollId := by
  unfold shardsGate at h
  split at h
  · split at h
    · split at h
      · split at h
        · split at h
          · injection h with h1; exact Or.inr (Or.inl h1.symm)
          · rcases hitsGate_failure doc k h with h1 | h1
            · exact Or.inr (Or.inr (Or.inl h1))
            · exact Or.inr (Or.inr (Or.inr h1))
        · injection h with h1; exact Or.inl h1.symm
      · injection h with h1; exact Or.inl h1.symm
    · injection h with h1; exact Or.inl h1.symm
  · injection h with h1; exact Or.inl h1.symm

/-- The timeout stage never fails with ParseError or ErrorFlagSet. -/
lemma timedOutGate_failure (doc : JValue) (k : ErrorKind)
    (h : timedOutGate doc = .failure k) :
    k = .timedOut ∨ k = .missingShardInfo ∨ k = .shardFailures ∨
      k = .missingHits ∨ k = .missingScrollId := by
  unfold timedOutGate at h
  split at h
  · split at h
    · injection h with h1; exact Or.inl h1.symm
    · rcases shardsGate_failure doc k h with h1 | h1 | h1 | h1 <;> simp [h1]
  · rcases shardsGate_failure doc k h with h1 | h1 | h1 | h1 <;> simp [h1]

/-- Correspondence of the error-flag stage with spec gate 2: when the spec
gate passes the source continues with the timeout stage, when it fails the
source returns false at the ErrorFlagSet site. -/
lemma errorGate_eq (doc : JValue) :
    (specErrorGate doc = none ∧ errorGate doc = timedOutGate doc) ∨
    (specErrorGate doc = some .errorFlagSet ∧
      errorGate doc = .failure .errorFlagSet) := by
  cases hf : doc.findMem "error" with
  | none => simp [errorGate, specErrorGate, hf]
  | some e =>
    cases e with
    | jbool b =>
      cases b <;> simp [errorGate, specErrorGate, hf, JValue.isBool, JValue.getBool]
    | jnull => simp [errorGate, specErrorGate, hf, JValue.isBool, JValue.getBool]
    | jnum n => simp [errorGate, specErrorGate, hf, JValue.isBool, JValue.getBool]
    | jstr s => simp [errorGate, specErrorGate, hf, JValue.isBool, JValue.getBool]
    | jarr elems => simp [errorGate, specErrorGate, hf, JValue.isBool, JValue.getBool]
    | jobj members => simp [errorGate, specErrorGate, hf, JValue.isBool, JValue.getBool]

/-- Correspondence of the timeout stage with spec gate 3. -/
lemma timedOutGate_eq (doc : JValue) :
    (specTimedOutGate doc = none ∧ timedOutGate doc = shardsGate doc) ∨
    (specTimedOutGate doc = some .timedOut ∧
      timedOutGate doc = .failure .timedOut) := by
  cases hf : doc.findMem "timed_out" with
  | none => simp [timedOutGate, specTimedOutGate, hf]
  | some t =>
    cases t with
    | jbool b =>
      cases b <;>
        simp [timedOutGate, specTimedOutGate, hf, JValue.isBool, JValue.getBool]
    | jnull => simp [timedOutGate, specTimedOutGate, hf, JValue.isBool, JValue.getBool]
    | jnum n => simp [timedOutGate, specTimedOutGate, hf, JValue.isBool, JValue.getBool]
    | jstr s => simp [timedOutGate, specTimedOutGate, hf, JValue.isBool, JValue.getBool]
    | jarr elems => simp [timedOutGate, specTimedOutGate, hf, JValue.isBool, JValue.getBool]
    | jobj members => simp [timedOutGate, specTimedOutGate, hf, JValue.isBool, JValue.getBool]

/-- Correspondence of the shards stage with spec gate 4. -/
lemma shardsGate_eq (doc : JValue) :
    (specShardsGate doc = none ∧ shardsGate doc = hitsGate doc) ∨
    (∃ k, specShardsGate doc = some k ∧ shardsGate doc = .failure k) := by
  cases hf : doc.findMem "_shards" with
  | none => simp [shardsGate, specShardsGate, hf]
  | some shards =>
    by_cases hobj : shards.isObject
    · cases hh : shards.findMem "failed" with
      | none => simp [shardsGate, specShardsGate, hf, hobj, hh]
      | some f =>
        by_cases hint : f.isInt
        · by_cases hpos : f.getInt > 0 <;>
            simp [shardsGate, specShardsGate, hf, hobj, hh, hint, hpos]
        · simp [shardsGate, specShardsGate, hf, hobj, hh, hint]
    · simp [shardsGate, specShardsGate, hf, hobj]

/-- Correspondence of the hits stage with spec gate 5: on a pass both
continue to the scroll id stage; on a spec-gate failure the source either
returns false at the MissingHits site or, when the hits member is not an
object, violates the rapidjson precondition. -/
lemma hitsGate_eq (doc : JValue) :
    (specHitsGate doc = none ∧ hitsGate doc = scrollGate doc) ∨
    (specHitsGate doc = some .missingHits ∧
      (hitsGate doc = .failure .missingHits ∨
        hitsGate doc = .undefinedBehavior)) := by
  cases hf : doc.findMem "hits" with
  | none => simp [hitsGate, specHitsGate, hf]
  | some hits =>
    by_cases hobj : hits.isObject
    · cases hh : hits.findMem "hits" with
      | none => simp [hitsGate, specHitsGate, hf, hobj, hh]
      | some hh2 =>
        by_cases harr : hh2.isArray <;>
          simp [hitsGate, specHitsGate, hf, hobj, hh, harr]
    · simp [hitsGate, specHitsGate, hf, hobj]

/-- Correspondence of the scroll id stage with spec gate 6: on a pass the
source succeeds with the document itself and the string value of the
scroll id member; on a failure it returns false at the MissingScrollId
site. -/
lemma scrollGate_eq (doc : JValue) :
    (∃ s, specScrollIdGate doc = none ∧ scrollGate doc = .success doc s ∧
      doc.findMem "_scroll_id" = some (.jstr s)) ∨
    (specScrollIdGate doc = some .missingScrollId ∧
      scrollGate doc = .failure .missingScrollId) := by
  cases hf : doc.findMem "_scroll_id" with
  | none => simp [scrollGate, specScrollIdGate, hf]
  | some sid =>
    cases sid with
    | jstr s =>
      exact Or.inl ⟨s, by simp [specScrollIdGate, hf, JValue.isString],
        by simp [scrollGate, hf, JValue.isString, JValue.getString], rfl⟩
    | jnull => simp [scrollGate, specScrollIdGate, hf, JValue.isString]
    | jbool b => simp [scrollGate, specScrollIdGate, hf, JValue.isString]
    | jnum n => simp [scrollGate, specScrollIdGate, hf, JValue.isString]
    | jarr elems => simp [scrollGate, specScrollIdGate, hf, JValue.isString]
    | jobj members => simp [scrollGate, specScrollIdGate, hf, JValue.isString]

/-- Whenever the source body does not hit the rapidjson precondition
violation, it fails with kind k exactly when the first failing gate of
the spec pipeline is k. -/
lemma scrollOutcome_failure_iff (p : Option JValue)
    (hne : scrollOutcome p ≠ .undefinedBehavior) (k : ErrorKind) :
    scrollOutcome p = .failure k ↔ firstFailure p = some k := by
  cases p with
  | none => simp [scrollOutcome, firstFailure]
  | some doc =>
    by_cases hobj : doc.isObject
    · have hso : scrollOutcome (some doc) = errorGate doc := by
        simp [scrollOutcome, hobj]
      rw [hso] at hne ⊢
      rcases errorGate_eq doc with ⟨he, he2⟩ | ⟨he, he2⟩
      · rw [he2] at hne ⊢
        rcases timedOutGate_eq doc with ⟨ht, ht2⟩ | ⟨ht, ht2⟩
        · rw [ht2] at hne ⊢
          rcases shardsGate_eq doc with ⟨hs, hs2⟩ | ⟨k2, hs, hs2⟩
          · rw [hs2] at hne ⊢
            rcases hitsGate_eq doc with ⟨hh, hh2⟩ | ⟨hh, hh2 | hh2⟩
            · rw [hh2] at hne ⊢
              rcases scrollGate_eq doc with ⟨s, hg, hg2, hg3⟩ | ⟨hg, hg2⟩
              · rw [hg2]
                simp [firstFailure, hobj, he, ht, hs, hh, hg]
              · rw [hg2]
                simp [firstFailure, hobj, he, ht, hs, hh, hg]
            · rw [hh2]
              simp [firstFailure, hobj, he, ht, hs, hh]
            · exact absurd hh2 hne
          · rw [hs2]
            simp [firstFailure, hobj, he, ht, hs]
        · rw [ht2]
          simp [firstFailure, hobj, he, ht]
      · rw [he2]
        simp [firstFailure, hobj, he]
    · simp [scrollOutcome, firstFailure, hobj]

/-- The source body succeeds with document d and token s exactly when the
input parsed to d, every spec gate passes on d, and the scroll id member
of d is the string s. -/
lemma scrollOutcome_success_iff (p : Option JValue) (d : JValue) (s : String) :
    scrollOutcome p = .success d s ↔
      (p = some d ∧ firstFailure p = none ∧
        d.findMem "_scroll_id" = some (.jstr s)) := by
  cases p with
  | none => simp [scrollOutcome, firstFailure]
  | some doc =>
    by_cases hobj : doc.isObject
    · have hso : scrollOutcome (some doc) = errorGate doc := by
        simp [scrollOutcome, hobj]
      rw [hso]
      rcases errorGate_eq doc with ⟨he, he2⟩ | ⟨he, he2⟩
      · rw [he2]
        rcases timedOutGate_eq doc with ⟨ht, ht2⟩ | ⟨ht, ht2⟩
        · rw [ht2]
          rcases shardsGate_eq doc with ⟨hs, hs2⟩ | ⟨k2, hs, hs2⟩
          · rw [hs2]
            rcases hitsGate_eq doc with ⟨hh, hh2⟩ | ⟨hh, hh2 | hh2⟩
            · rw [hh2]
              rcases scrollGate_eq doc with ⟨s0, hg, hg2, hg3⟩ | ⟨hg, hg2⟩
              · rw [hg2]
                constructor
                · intro hsucc
                  injection hsucc with hd hs0
                  subst hd
                  subst hs0
                  exact ⟨rfl, by simp [firstFailure, hobj, he, ht, hs, hh, hg], hg3⟩
                · rintro ⟨hpd, _, hsid⟩
                  injection hpd with hpd
                  subst hpd
                  rw [hg3] at hsid
                  injection hsid with hj
                  injection hj with hj2
                  subst hj2
                  rfl
              · rw [hg2]
                simp [firstFailure, hobj, he, ht, hs, hh, hg]
            · rw [hh2]
              simp [firstFailure, hobj, he, ht, hs, hh]
            · rw [hh2]
              simp [firstFailure, hobj, he, ht, hs, hh]
          · rw [hs2]
            simp [firstFailure, hobj, he, ht, hs]
        · rw [ht2]
          simp [firstFailure, hobj, he, ht]
      · rw [he2]
        simp [firstFailure, hobj, he]
    · simp [scrollOutcome, firstFailure, hobj]

/-- When the root is an object and the error and timeout spec gates pass,
the run of the source body reduces to the shards stage. -/
lemma scrollOutcome_to_shards (doc : JValue) (hobj : doc.isObject = true)
    (he : specErrorGate doc = none) (ht : specTimedOutGate doc = none) :
    scrollOutcome (some doc) = shardsGate doc := by
  have hso : scrollOutcome (some doc) = errorGate doc := by
    simp [scrollOutcome, hobj]
  rcases errorGate_eq doc with ⟨_, he2⟩ | ⟨he1, _⟩
  · rcases timedOutGate_eq doc with ⟨_, ht2⟩ | ⟨ht1, _⟩
    · rw [hso, he2, ht2]
    · rw [ht] at ht1
      simp at ht1
  · rw [he] at he1
    simp at he1

/-!
Counterexample and witness documents.
-/

/-- Root object with error set to boolean true. -/
def errTrueDoc : JValue := .jobj [("error", .jbool true)]

/-- Root object with error set to boolean false. -/
def errFalseDoc : JValue := .jobj [("error", .jbool false)]

/-- Root object with timed out set to boolean true. -/
def timedTrueDoc : JValue := .jobj [("timed_out", .jbool true)]

/-- Error flag set together with one failed shard and well-formed hits and
scroll id. -/
def c3doc : JValue :=
  .jobj [("error", .jbool true),
         ("_shards", .jobj [("failed", .jnum (.intVal 1))]),
         ("hits", .jobj [("hits", .jarr [])]),
         ("_scroll_id", .jstr "x")]

/-- Healthy shards but a hits member that is a string, not an object. -/
def c4doc : JValue :=
  .jobj [("_shards", .jobj [("failed", .jnum (.intVal 0))]),
         ("hits", .jstr "oops")]

/-- Error flag set, shards entirely missing, hits and scroll id
well-formed. -/
def c5doc : JValue :=
  .jobj [("error", .jbool true),
         ("hits", .jobj [("hits", .jarr [])]),
         ("_scroll_id", .jstr "x")]

/-- Shards object whose failed member holds one failed shard, used to
witness the amended shard-failure claim. -/
def w3doc : JValue := .jobj [("_shards", .jobj [("failed", .jnum (.intVal 1))])]

/-- The shards object inside w3doc. -/
def w3sh : JValue := .jobj [("failed", .jnum (.intVal 1))]

/-- Well-formed hits and scroll id but no shards member at all. -/
def w5doc : JValue :=
  .jobj [("hits", .jobj [("hits", .jarr [])]), ("_scroll_id", .jstr "x")]

/-- Shards with a failed value one past the signed 32-bit range. -/
def w9a : JValue :=
  .jobj [("_shards", .jobj [("failed", .jnum (.intVal 2147483648))])]

/-- The shards object inside w9a. -/
def w9ash : JValue := .jobj [("failed", .jnum (.intVal 2147483648))]

/-- Shards with a non-integral failed value. -/
def w9b : JValue := .jobj [("_shards", .jobj [("failed", .jnum .nonInt)])]

/-- The shards object inside w9b. -/
def w9bsh : JValue := .jobj [("failed", .jnum .nonInt)]

/-- Shards with failed equal to minus one, plus well-formed hits and
scroll id. -/
def w9c : JValue :=
  .jobj [("_shards", .jobj [("failed", .jnum (.intVal (-1)))]),
         ("hits", .jobj [("hits", .jarr [])]),
         ("_scroll_id", .jstr "x")]

/-- The shards object inside w9c. -/
def w9csh : JValue := .jobj [("failed", .jnum (.intVal (-1)))]

/-!
Claim theorems.
-/

/-- C1 (counterexample): the claim that a failing call exposes no parsed
document through the parsedResult out-parameter is false — on the input
whose root object sets error to true the call returns false, yet
parsedResult afterwards holds a freshly allocated JsonResult containing
the fully parsed document tree. -/
theorem C1_cex :
    (parseScrollResult (some errTrueDoc) st0).1 = some false ∧
    (parseScrollResult (some errTrueDoc) st0).2.parsedResult =
      some { document := some errTrueDoc } :=
  ⟨rfl, rfl⟩

/-- C1 (amended): parseScrollResult unconditionally overwrites the
parsedResult out-parameter with a freshly allocated JsonResult holding
the parse outcome, on failure exactly as on success; a failure therefore
does leave the (possibly partially) parsed document reachable through
parsedResult, and only the boolean return value signals it. -/
theorem C1_parsedResult_always_written :
    ∀ (p : Option JValue) (st : CallState),
      (parseScrollResult p st).2.parsedResult = some { document := p } := by
  intro p st
  cases h : scrollOutcome p <;> simp [parseScrollResult, h]

/-- C2 (counterexample): the returned value does not classify the failure
— an input failing the error-flag gate and an input failing the timeout
gate produce the identical returned value some false, although the
classified outcomes of the two runs differ. -/
theorem C2_cex :
    (parseScrollResult (some errTrueDoc) st0).1 =
      (parseScrollResult (some timedTrueDoc) st0).1 ∧
    (parseScrollResult (some errTrueDoc) st0).1 = some false ∧
    scrollOutcome (some errTrueDoc) = .failure .errorFlagSet ∧
    scrollOutcome (some timedTrueDoc) = .failure .timedOut :=
  ⟨rfl, rfl, rfl, rfl⟩

/-- C2 (amended): every failing run of parseScrollResult returns the same
unclassified boolean false, and each such run corresponds internally to
exactly one kind of the closed taxonomy (its classified outcome); the
kind is not recoverable from the returned value alone. -/
theorem C2_failure_is_plain_false :
    ∀ (p : Option JValue) (st : CallState),
      (parseScrollResult p st).1 = some false ↔
        ∃ k, scrollOutcome p = .failure k := by
  intro p st
  cases h : scrollOutcome p <;> simp [parseScrollResult, h]

/-- C3 (counterexample): an input with one failed shard but the error
flag set fails with ErrorFlagSet, not ShardFailures — the shard gate does
not override the earlier error gate, so the claim as stated (ShardFailures
regardless of every other field) is false. -/
theorem C3_cex :
    scrollOutcome (some c3doc) = .failure .errorFlagSet ∧
    scrollOutcome (some c3doc) ≠ .failure .shardFailures :=
  ⟨rfl, by simp [show scrollOutcome (some c3doc) = .failure .errorFlagSet from rfl]⟩

/-- C3 (amended): for every input that parses as a JSON object, passes
the error-flag and timeout gates, and whose shards member is an object
containing a failed member holding an int32-representable integer greater
than zero, the validator fails with ShardFailures regardless of every
other field. -/
theorem C3_shard_failures (doc sh : JValue) (n : Int)
    (hobj : doc.isObject = true)
    (herr : specErrorGate doc = none)
    (hto : specTimedOutGate doc = none)
    (hsh : doc.findMem "_shards" = some sh)
    (hshobj : sh.isObject = true)
    (hf : sh.findMem "failed" = some (.jnum (.intVal n)))
    (hlo : -2147483648 ≤ n) (hhi : n < 2147483648) (hpos : 0 < n) :
    scrollOutcome (some doc) = .failure .shardFailures := by
  rw [scrollOutcome_to_shards doc hobj herr hto]
  simp [shardsGate, hsh, hshobj, hf, JValue.isInt, JValue.getInt, hlo, hhi, hpos]

/-- C3 (witness): the amended claim at a concrete input with one failed
shard. -/
theorem C3_witness :
    scrollOutcome (some w3doc) = .failure .shardFailures :=
  C3_shard_failures w3doc w3sh 1 rfl rfl rfl rfl rfl rfl
    (by decide) (by decide) (by decide)

/-- C4 (code bug): the hits gate is not total.  On an input whose root
has healthy shards but a hits member that is a string, the code evaluates
HasMember on a non-object value, violating the RAPIDJSON_ASSERT
precondition of rapidjson FindMember (modelled as undefinedBehavior)
instead of returning the MissingHits failure that the spec pipeline
(first failing gate of firstFailure) prescribes for this input. -/
theorem C4_hits_gate_not_total :
    scrollOutcome (some c4doc) = .undefinedBehavior ∧
    firstFailure (some c4doc) = some .missingHits :=
  ⟨rfl, rfl⟩

/-- C5 (counterexample): an input with shards entirely missing but the
error flag set fails with ErrorFlagSet, not MissingShardInfo, so the
claim as stated (MissingShardInfo for every input missing shards) is
false. -/
theorem C5_cex :
    scrollOutcome (some c5doc) = .failure .errorFlagSet ∧
    scrollOutcome (some c5doc) ≠ .failure .missingShardInfo :=
  ⟨rfl, by simp [show scrollOutcome (some c5doc) = .failure .errorFlagSet from rfl]⟩

/-- C5 (amended): for every input that parses as a JSON object and passes
the error-flag and timeout gates, if the shards member is missing, or not
an object, or lacks a failed member passing the int32 check, the
validator fails with MissingShardInfo even if hits and scroll id are
well-formed. -/
theorem C5_missing_shard_info (doc : JValue)
    (hobj : doc.isObject = true)
    (herr : specErrorGate doc = none)
    (hto : specTimedOutGate doc = none)
    (hbad : doc.findMem "_shards" = none ∨
      ∃ sh, doc.findMem "_shards" = some sh ∧
        (sh.isObject = false ∨ sh.findMem "failed" = none ∨
          ∃ f, sh.findMem "failed" = some f ∧ f.isInt = false)) :
    scrollOutcome (some doc) = .failure .missingShardInfo := by
  rw [scrollOutcome_to_shards doc hobj herr hto]
  rcases hbad with hnone | ⟨sh, hsh, hshbad⟩
  · simp [shardsGate, hnone]
  · rcases hshbad with hno | hnof | ⟨f, hf, hfint⟩
    · simp [shardsGate, hsh, hno]
    · by_cases hso : sh.isObject <;> simp [shardsGate, hsh, hso, hnof]
    · by_cases hso : sh.isObject <;> simp [shardsGate, hsh, hso, hf, hfint]

/-- C5 (witness): the amended claim at a concrete input with well-formed
hits and scroll id but no shards member. -/
theorem C5_witness :
    scrollOutcome (some w5doc) = .failure .missingShardInfo :=
  C5_missing_shard_info w5doc rfl rfl rfl (Or.inl rfl)

/-- C6 (counterexample): on the input whose hits member is a string the
first failing gate of the pipeline is the hits gate (MissingHits), yet
the run does not produce that failure — it trips the rapidjson
precondition violation instead — so the rule that the first failing gate
determines the outcome does not hold on every input. -/
theorem C6_cex :
    firstFailure (some c4doc) = some .missingHits ∧
    scrollOutcome (some c4doc) ≠ .failure .missingHits :=
  ⟨rfl, by simp [show scrollOutcome (some c4doc) = .undefinedBehavior from rfl]⟩

/-- C6 (amended): the gates run in the fixed source order with the first
failing gate determining the outcome on every input that stays clear of
the rapidjson precondition violation of the hits stage (a present but
non-object hits member), and the E6 scenario fails with TimedOut because
the timeout gate precedes scroll id extraction. -/
theorem C6_gate_order :
    (∀ (p : Option JValue), scrollOutcome p ≠ .undefinedBehavior →
      ∀ (k : ErrorKind),
        scrollOutcome p = .failure k ↔ firstFailure p = some k) ∧
    scrollOutcome (some e6doc) = .failure .timedOut :=
  ⟨scrollOutcome_failure_iff, rfl⟩

/-- C6 (witness): the ordering theorem applied to the E6 scenario. -/
theorem C6_witness :
    scrollOutcome (some e6doc) = .failure .timedOut ↔
      firstFailure (some e6doc) = some .timedOut :=
  C6_gate_order.1 (some e6doc)
    (by simp [show scrollOutcome (some e6doc) = .failure .timedOut from rfl])
    .timedOut

/-- C7: for every input that parses as a JSON object whose root contains
a member named error, the validator fails with ErrorFlagSet exactly when
that value is anything other than boolean false, and the gate passes
(no ErrorFlagSet failure is ever produced) when the value is boolean
false or the member is absent. -/
theorem C7_error_gate :
    (∀ (doc v : JValue), doc.isObject = true →
      doc.findMem "error" = some v → v ≠ .jbool false →
      scrollOutcome (some doc) = .failure .errorFlagSet) ∧
    (∀ (doc : JValue), doc.isObject = true →
      (doc.findMem "error" = none ∨
        doc.findMem "error" = some (.jbool false)) →
      scrollOutcome (some doc) ≠ .failure .errorFlagSet) := by
  constructor
  · intro doc v hobj hfind hv
    have hso : scrollOutcome (some doc) = errorGate doc := by
      simp [scrollOutcome, hobj]
    rw [hso]
    unfold errorGate
    rw [hfind]
    cases v with
    | jbool b =>
      cases b
      · exact absurd rfl hv
      · simp [JValue.isBool, JValue.getBool]
    | jnull => simp [JValue.isBool, JValue.getBool]
    | jnum n => simp [JValue.isBool, JValue.getBool]
    | jstr s => simp [JValue.isBool, JValue.getBool]
    | jarr elems => simp [JValue.isBool, JValue.getBool]
    | jobj members => simp [JValue.isBool, JValue.getBool]
  · intro doc hobj hpass
    have hso : scrollOutcome (some doc) = errorGate doc := by
      simp [scrollOutcome, hobj]
    rw [hso]
    have hstep : errorGate doc = timedOutGate doc := by
      unfold errorGate
      rcases hpass with h | h
      · rw [h]
      · rw [h]
        simp [JValue.isBool, JValue.getBool]
    rw [hstep]
    intro hcon
    rcases timedOutGate_failure doc _ hcon with h1 | h1 | h1 | h1 | h1 <;>
      exact ErrorKind.noConfusion h1

/-- C7 (witness): the error gate at two concrete inputs, one with error
true (fails with ErrorFlagSet) and one with error false (passes). -/
theorem C7_witness :
    scrollOutcome (some errTrueDoc) = .failure .errorFlagSet ∧
    scrollOutcome (some errFalseDoc) ≠ .failure .errorFlagSet :=
  ⟨C7_error_gate.1 errTrueDoc (.jbool true) rfl rfl (by simp),
   C7_error_gate.2 errFalseDoc rfl (Or.inr rfl)⟩

/-- C8: the validator succeeds exactly when all six gates pass, and on
success it returns the very document tree that was validated (the parse
outcome itself, no divergent copy) together with the string value of the
root scroll id member exactly as received; concretely, the E1 scenario
succeeds with token abc123 and parseScrollResult returns true, stores the
parsed tree in parsedResult and writes abc123 into scrollId. -/
theorem C8_success :
    (∀ (p : Option JValue) (d : JValue) (s : String),
      scrollOutcome p = .success d s ↔
        (p = some d ∧ firstFailure p = none ∧
          d.findMem "_scroll_id" = some (.jstr s))) ∧
    scrollOutcome (some e1doc) = .success e1doc "abc123" ∧
    parseScrollResult (some e1doc) st0 =
      (some true,
        { parsedResult := some { document := some e1doc },
          scrollId := "abc123" }) :=
  ⟨scrollOutcome_success_iff, rfl, rfl⟩

/-- C8 (witness): the success characterization applied to the E1
scenario. -/
theorem C8_witness :
    some e1doc = some e1doc ∧ firstFailure (some e1doc) = none ∧
      e1doc.findMem "_scroll_id" = some (.jstr "abc123") :=
  (C8_success.1 (some e1doc) e1doc "abc123").mp C8_success.2.1

/-- C9: the shard gate only accepts a failed value passing rapidjson
IsInt, that is an integer-slot value within the signed 32-bit range: an
integral value outside that range fails with MissingShardInfo as if the
member were missing, a non-integral (double-slot) value does too, and
any in-range value not greater than zero — including negative values —
passes the gate (no shard-gate failure is produced). -/
theorem C9_failed_int32 :
    (∀ (doc sh : JValue) (n : Int), doc.isObject = true →
      specErrorGate doc = none → specTimedOutGate doc = none →
      doc.findMem "_shards" = some sh → sh.isObject = true →
      sh.findMem "failed" = some (.jnum (.intVal n)) →
      (n < -2147483648 ∨ 2147483648 ≤ n) →
      scrollOutcome (some doc) = .failure .missingShardInfo) ∧
    (∀ (doc sh : JValue), doc.isObject = true →
      specErrorGate doc = none → specTimedOutGate doc = none →
      doc.findMem "_shards" = some sh → sh.isObject = true →
      sh.findMem "failed" = some (.jnum .nonInt) →
      scrollOutcome (some doc) = .failure .missingShardInfo) ∧
    (∀ (doc sh : JValue) (n : Int), doc.isObject = true →
      specErrorGate doc = none → specTimedOutGate doc = none →
      doc.findMem "_shards" = some sh → sh.isObject = true →
      sh.findMem "failed" = some (.jnum (.intVal n)) →
      -2147483648 ≤ n → n < 2147483648 → n ≤ 0 →
      scrollOutcome (some doc) ≠ .failure .missingShardInfo ∧
        scrollOutcome (some doc) ≠ .failure .shardFailures) := by
  refine ⟨?_, ?_, ?_⟩
  · intro doc sh n hobj herr hto hsh hshobj hf hout
    rw [scrollOutcome_to_shards doc hobj herr hto]
    have hni : ¬(-2147483648 ≤ n ∧ n < 2147483648) := by omega
    simp [shardsGate, hsh, hshobj, hf, JValue.isInt, hni]
  · intro doc sh hobj herr hto hsh hshobj hf
    rw [scrollOutcome_to_shards doc hobj herr hto]
    simp [shardsGate, hsh, hshobj, hf, JValue.isInt]
  · intro doc sh n hobj herr hto hsh hshobj hf hlo hhi hn
    rw [scrollOutcome_to_shards doc hobj herr hto]
    have hnp : ¬(n > 0) := by omega
    simp only [shardsGate, hsh, hshobj, if_true]
    simp [hf, JValue.isInt, JValue.getInt, hlo, hhi, hnp]
    constructor
    · intro hcon
      rcases hitsGate_failure doc _ hcon with h1 | h1 <;>
        exact ErrorKind.noConfusion h1
    · intro hcon
      rcases hitsGate_failure doc _ hcon with h1 | h1 <;>
        exact ErrorKind.noConfusion h1

/-- C9 (witness): the three parts at concrete inputs — failed one past
the int32 range, failed non-integral, and failed equal to minus one. -/
theorem C9_witness :
    scrollOutcome (some w9a) = .failure .missingShardInfo ∧
    scrollOutcome (some w9b) = .failure .missingShardInfo ∧
    (scrollOutcome (some w9c) ≠ .failure .missingShardInfo ∧
      scrollOutcome (some w9c) ≠ .failure .shardFailures) :=
  ⟨C9_failed_int32.1 w9a w9ash 2147483648 rfl rfl rfl rfl rfl rfl
      (Or.inr (by decide)),
   C9_failed_int32.2.1 w9b w9bsh rfl rfl rfl rfl rfl rfl,
   C9_failed_int32.2.2 w9c w9csh (-1) rfl rfl rfl rfl rfl rfl
      (by decide) (by decide) (by decide)⟩

/-- C10: on every run that returns false, the scrollId out-parameter is
left completely unchanged from its value before the call: it is written
only on the success path, so no token — even a partial or stale one — is
produced on failure. -/
theorem C10_scrollId_frame :
    ∀ (p : Option JValue) (st : CallState),
      (parseScrollResult p st).1 = some false →
      (parseScrollResult p st).2.scrollId = st.scrollId := by
  intro p st h
  cases hso : scrollOutcome p <;> simp [parseScrollResult, hso] at h ⊢

/-- C10 (witness): a failing parse leaves the scrollId out-parameter
untouched. -/
theorem C10_witness :
    (parseScrollResult none st0).1 = some false ∧
    (parseScrollResult none st0).2.scrollId = st0.scrollId :=
  ⟨rfl, C10_scrollId_frame none st0 rfl⟩

end Elasticlient
